import Mathlib

/-!
Verification of the MetaHuman backend pipeline (src/backend/main.py).

The source is a FastAPI application whose `/api/chat` endpoint runs a
four-stage pipeline: LLM completion, text-to-speech, audio-to-blendshape
inference, and delivery to Unreal Engine.  We model the code as pure
functions over an explicit configuration environment (the environment
variables read via `os.getenv`) and an explicit world of upstream service
responses; every function additionally returns the list of outbound HTTP
calls it makes, so that call-count properties can be stated.  Python
exceptions become an explicit `Except` error value; Python JSON values
become the `Json` inductive below; byte strings become `List Nat`.
-/

/-- A Python JSON value.  Numbers are modelled as rationals (the source
only ever passes numeric literals through; no float arithmetic occurs). -/
inductive Json where
  | null : Json
  | bool : Bool → Json
  | str : String → Json
  | num : Rat → Json
  | arr : List Json → Json
  | obj : List (String × Json) → Json

/-- Byte strings (`bytes` in the source). -/
abbrev Bytes := List Nat

/-- Python truthiness of an `os.getenv` result: `not api_key` is true when
the variable is unset (`None`) or set to the empty string. -/
def truthy : Option String → Bool
  | none => false
  | some s => !(s == "")

/-- Key lookup in a JSON object association list. -/
def lookupKV : List (String × Json) → String → Option Json
  | [], _ => none
  | (k, v) :: rest, key => if k = key then some v else lookupKV rest key

/-- Python `j[k]` for a string key: succeeds only on objects holding the
key; every other case raises in Python, modelled as `none`. -/
def jsonGet (j : Json) (k : String) : Option Json :=
  match j with
  | .obj kvs => lookupKV kvs k
  | _ => none

/-- Python `j[i]` for an integer index: succeeds only on arrays of
sufficient length. -/
def jsonIndex (j : Json) (i : Nat) : Option Json :=
  match j with
  | .arr xs => xs.get? i
  | _ => none

/-- The base64 alphabet (RFC 4648), as used by `base64.b64encode`. -/
def b64chars : List Char :=
  String.toList "ABCDEFGHIJKLMNOPQRSTUVWXYZabcdefghijklmnopqrstuvwxyz0123456789+/"

/-- The character for a 6-bit group. -/
def b64char (n : Nat) : Char := b64chars.getD n 'A'

/-- Encode a byte list into base64 characters, three bytes at a time,
with `=` padding, as `base64.b64encode` does. -/
def b64encodeGroups : List Nat → List Char
  | [] => []
  | [b0] =>
      [b64char (b0 / 4), b64char (b0 % 4 * 16), '=', '=']
  | [b0, b1] =>
      [b64char (b0 / 4), b64char (b0 % 4 * 16 + b1 / 16), b64char (b1 % 16 * 4), '=']
  | b0 :: b1 :: b2 :: rest =>
      b64char (b0 / 4) :: b64char (b0 % 4 * 16 + b1 / 16) ::
        b64char (b1 % 16 * 4 + b2 / 64) :: b64char (b2 % 64) :: b64encodeGroups rest

/-- `base64.b64encode(audio_data).decode("utf-8")` from the source. -/
def b64encode (bs : Bytes) : String := String.mk (b64encodeGroups bs)

/-- The configuration environment: the four environment variables the
source reads (src lines 176, 231, 287, 340). -/
structure Env where
  OPENAI_API_KEY : Option String
  TTS_API_KEY : Option String
  NEUROSYNC_API_KEY : Option String
  UNREAL_API_ENDPOINT : Option String

/-- The state of the external world: for each upstream service, the HTTP
status code and body it would answer with if called during this request. -/
structure World where
  llm_status : Nat
  llm_body : Json
  tts_status : Nat
  tts_content : Bytes
  neurosync_status : Nat
  neurosync_body : Json
  unreal_status : Nat

/-- One outbound HTTP POST made by the pipeline: the target URL and the
JSON payload sent (src lines 185, 239, 298, 351). -/
inductive ServiceCall where
  | llm (url : String) (payload : Json)
  | tts (url : String) (payload : Json)
  | neurosync (url : String) (payload : Json)
  | unreal (url : String) (payload : Json)

def ServiceCall.isLLM : ServiceCall → Bool
  | .llm _ _ => true
  | _ => false

def ServiceCall.isTts : ServiceCall → Bool
  | .tts _ _ => true
  | _ => false

def ServiceCall.isNeurosync : ServiceCall → Bool
  | .neurosync _ _ => true
  | _ => false

def ServiceCall.isUnreal : ServiceCall → Bool
  | .unreal _ _ => true
  | _ => false

/-- A Python exception raised inside the pipeline.  `valueError` is the
`ValueError` of src line 178; `httpException` is the FastAPI
`HTTPException(status_code, detail)`; `lookupError` stands for the
KeyError/IndexError/TypeError raised when an upstream JSON body lacks the
expected shape (the exact Python message is abstracted). -/
inductive PyError where
  | valueError (msg : String)
  | httpException (status_code : Nat) (detail : String)
  | lookupError (msg : String)

/-- Python `str(e)` for the exceptions above.  For `HTTPException`,
Starlette renders the status code, a colon-space, and the detail. -/
def strOfError : PyError → String
  | .valueError msg => msg
  | .httpException s d => toString s ++ ": " ++ d
  | .lookupError msg => msg

/-- `class Message(BaseModel)` (src lines 63-74): a conversation message
with a plain string role and string content. -/
structure Message where
  role : String
  content : String

/-- `class ChatRequest(BaseModel)` (src lines 76-87): the current user
message plus the conversation history. -/
structure ChatRequest where
  message : String
  messages : List Message

/-- The JSON payload posted to the completion service (src lines 191-196):
fixed model, the formatted messages, fixed temperature and max_tokens. -/
def llm_payload (formatted_messages : List (String × String)) : Json :=
  Json.obj
    [("model", Json.str "gpt-4"),
     ("messages", Json.arr (formatted_messages.map
        (fun p => Json.obj [("role", Json.str p.1), ("content", Json.str p.2)]))),
     ("temperature", Json.num (7 / 10)),
     ("max_tokens", Json.num 150)]

def llm_url : String := "https://api.openai.com/v1/chat/completions"

/-- `result["choices"][0]["message"]["content"]` (src line 205). -/
def extract_llm_content (result : Json) : Option Json :=
  ((jsonGet result "choices").bind (fun c => jsonIndex c 0)).bind
    (fun c0 => (jsonGet c0 "message").bind (fun m => jsonGet m "content"))

/-- `generate_llm_response` (src lines 154-209).  Reads OPENAI_API_KEY and
raises ValueError if it is unset; otherwise formats the messages, POSTs to
the completion service, raises HTTPException on a non-200 status, and
extracts the message content of the first choice (a lookup error if the body
has an unexpected shape).  The trailing `except ... raise` of the source
re-raises unchanged and needs no model.  Returns the result together with
the outbound calls made. -/
def generate_llm_response (env : Env) (w : World) (messages : List Message) :
    Except PyError Json × List ServiceCall :=
  if truthy env.OPENAI_API_KEY = false then
    (Except.error (PyError.valueError "OPENAI_API_KEY environment variable not set"), [])
  else
    let formatted_messages := messages.map (fun msg => (msg.role, msg.content))
    let call := ServiceCall.llm llm_url (llm_payload formatted_messages)
    if w.llm_status ≠ 200 then
      (Except.error (PyError.httpException w.llm_status "LLM API error"), [call])
    else
      match extract_llm_content w.llm_body with
      | some content => (Except.ok content, [call])
      | none => (Except.error (PyError.lookupError "unexpected LLM response shape"), [call])

/-- `b"DUMMY_AUDIO_DATA"` (src line 235), as bytes. -/
def DUMMY_AUDIO_DATA : Bytes := (String.toList "DUMMY_AUDIO_DATA").map Char.toNat

/-- The JSON payload posted to the TTS service (src lines 245-252). -/
def tts_payload (text : Json) : Json :=
  Json.obj
    [("text", text),
     ("model_id", Json.str "eleven_monolingual_v1"),
     ("voice_settings", Json.obj
        [("stability", Json.num (1 / 2)), ("similarity_boost", Json.num (1 / 2))])]

def tts_url : String := "https://api.elevenlabs.io/v1/text-to-speech/voice_id"

/-- `text_to_speech` (src lines 211-264).  If TTS_API_KEY is unset,
returns the dummy audio bytes without any call; otherwise POSTs to the TTS
service, raises HTTPException on a non-200 status, and returns the raw
response content. -/
def text_to_speech (env : Env) (w : World) (text : Json) :
    Except PyError Bytes × List ServiceCall :=
  if truthy env.TTS_API_KEY = false then
    (Except.ok DUMMY_AUDIO_DATA, [])
  else
    let call := ServiceCall.tts tts_url (tts_payload text)
    if w.tts_status ≠ 200 then
      (Except.error (PyError.httpException w.tts_status "TTS API error"), [call])
    else
      (Except.ok w.tts_content, [call])

/-- The dummy blendshape list of src line 291: one frame, frame index 0,
one shape named mouthOpen at weight 0.5. -/
def dummy_blendshapes : Json :=
  Json.arr
    [Json.obj
      [("frame", Json.num 0),
       ("blendshapes", Json.obj [("mouthOpen", Json.num (1 / 2))])]]

/-- The JSON payload posted to the Neurosync service (src lines 304-307). -/
def neurosync_payload (audio_base64 : String) : Json :=
  Json.obj
    [("audio_base64", Json.str audio_base64),
     ("model", Json.str "NEUROSYNC_Audio_To_Face_Blendshape")]

def neurosync_url : String := "https://api.neurosync.ai/audio-to-face"

/-- `audio_to_blendshapes` (src lines 266-320).  If NEUROSYNC_API_KEY is
unset, returns the dummy blendshape list without any call; otherwise
base64-encodes the audio, POSTs to the Neurosync service, raises
HTTPException on a non-200 status, and extracts `result["blendshapes"]`
(a lookup error if absent). -/
def audio_to_blendshapes (env : Env) (w : World) (audio_data : Bytes) :
    Except PyError Json × List ServiceCall :=
  if truthy env.NEUROSYNC_API_KEY = false then
    (Except.ok dummy_blendshapes, [])
  else
    let audio_base64 := b64encode audio_data
    let call := ServiceCall.neurosync neurosync_url (neurosync_payload audio_base64)
    if w.neurosync_status ≠ 200 then
      (Except.error (PyError.httpException w.neurosync_status "Neurosync API error"), [call])
    else
      match jsonGet w.neurosync_body "blendshapes" with
      | some bs => (Except.ok bs, [call])
      | none => (Except.error (PyError.lookupError "unexpected Neurosync response shape"), [call])

/-- The JSON payload posted to the Unreal Engine endpoint
(src lines 353-356). -/
def unreal_payload (audio_base64 : String) (blendshapes : Json) : Json :=
  Json.obj [("audio_base64", Json.str audio_base64), ("blendshapes", blendshapes)]

/-- `send_to_unreal_engine` (src lines 322-366).  If UNREAL_API_ENDPOINT
is unset, a logged no-op; otherwise base64-encodes the audio, POSTs to the
configured endpoint, and raises HTTPException on a non-200 status. -/
def send_to_unreal_engine (env : Env) (w : World) (audio_data : Bytes) (blendshapes : Json) :
    Except PyError Unit × List ServiceCall :=
  if truthy env.UNREAL_API_ENDPOINT = false then
    (Except.ok (), [])
  else
    let audio_base64 := b64encode audio_data
    let call := ServiceCall.unreal (env.UNREAL_API_ENDPOINT.getD "")
      (unreal_payload audio_base64 blendshapes)
    if w.unreal_status ≠ 200 then
      (Except.error (PyError.httpException w.unreal_status "Unreal Engine API error"), [call])
    else
      (Except.ok (), [call])

/-- Stages 3 and 4 of the `chat` endpoint plus the final return
(src lines 141-147): generate blendshapes from the audio, send audio and
blendshapes to Unreal Engine, then return the response dictionary. -/
def chat_tail (env : Env) (w : World) (llm_response : Json) (audio_data : Bytes) :
    Except PyError Json × List ServiceCall :=
  let s3 := audio_to_blendshapes env w audio_data
  match s3.1 with
  | Except.error e => (Except.error e, s3.2)
  | Except.ok blendshapes =>
    let s4 := send_to_unreal_engine env w audio_data blendshapes
    match s4.1 with
    | Except.error e => (Except.error e, s3.2 ++ s4.2)
    | Except.ok _ =>
        (Except.ok (Json.obj [("response", llm_response)]), s3.2 ++ s4.2)

/-- The body of the `try` block of the `chat` endpoint (src lines
134-147): the four stages run strictly in order, the failure of each
short-circuiting the rest.  Note that only `request.messages` is passed to
stage 1; the `request.message` field is never read. -/
def chat_body (env : Env) (w : World) (request : ChatRequest) :
    Except PyError Json × List ServiceCall :=
  let s1 := generate_llm_response env w request.messages
  match s1.1 with
  | Except.error e => (Except.error e, s1.2)
  | Except.ok llm_response =>
    let s2 := text_to_speech env w llm_response
    match s2.1 with
    | Except.error e => (Except.error e, s1.2 ++ s2.2)
    | Except.ok audio_data =>
      let st := chat_tail env w llm_response audio_data
      (st.1, s1.2 ++ s2.2 ++ st.2)

/-- The error response produced by the `except` clause of `chat`
(src lines 149-151): `HTTPException(status_code=500, detail=str(e))`. -/
structure HTTPErrorResponse where
  status_code : Nat
  detail : String

/-- The `chat` endpoint (src lines 114-151): run the pipeline; any
exception is caught and surfaced as an HTTP 500 whose detail is the
string form of the exception. -/
def chat (env : Env) (w : World) (request : ChatRequest) :
    Except HTTPErrorResponse Json × List ServiceCall :=
  let s := chat_body env w request
  match s.1 with
  | Except.ok v => (Except.ok v, s.2)
  | Except.error e => (Except.error (HTTPErrorResponse.mk 500 (strOfError e)), s.2)

/-- Python value of type `str`: pydantic accepts the field iff the JSON
value is a string. -/
def asString (j : Json) : Option String :=
  match j with
  | .str s => some s
  | _ => none

/-- Model of pydantic request validation for `Message` (src lines 63-74):
the declared field types are `role: str` and `content: str`; validation
requires both fields to be present with string values and imposes no
constraint on the role value (no enum).  The pydantic coercions of
non-string JSON values are not modelled. -/
def message_validate (j : Json) : Option Message :=
  match jsonGet j "role", jsonGet j "content" with
  | some r, some c =>
      match asString r, asString c with
      | some rs, some cs => some (Message.mk rs cs)
      | _, _ => none
  | _, _ => none

/-- Fold a list of optionally-validated messages. -/
def messages_validate : List Json → Option (List Message)
  | [] => some []
  | j :: rest =>
      match message_validate j, messages_validate rest with
      | some m, some ms => some (m :: ms)
      | _, _ => none

/-- Model of pydantic request validation for `ChatRequest` (src lines
76-87): `message: str` and `messages: List[Message]`. -/
def chat_request_validate (j : Json) : Option ChatRequest :=
  match jsonGet j "message", jsonGet j "messages" with
  | some m, some ms =>
      match asString m, ms with
      | some mstr, Json.arr items =>
          match messages_validate items with
          | some parsed => some (ChatRequest.mk mstr parsed)
          | none => none
      | _, _ => none
  | _, _ => none

/-- Non-success in the sense of the spec: any status outside 2xx. -/
def non2xx (s : Nat) : Prop := s < 200 ∨ 300 ≤ s

/-! Concrete fixtures used by witnesses and counterexamples. -/

/-- All four configuration variables set. -/
def envAll : Env :=
  Env.mk (some "k1") (some "k2") (some "k3") (some "http://unreal.local")

/-- Only the completion credential set. -/
def envLLMOnly : Env := Env.mk (some "k1") none none none

/-- Completion credential unset, everything else set. -/
def envNoLLM : Env :=
  Env.mk none (some "k2") (some "k3") (some "http://unreal.local")

/-- Speech credential unset, everything else set. -/
def envTtsAbsent : Env :=
  Env.mk (some "k1") none (some "k3") (some "http://unreal.local")

/-- Delivery endpoint unset, everything else set. -/
def envNoUnreal : Env := Env.mk (some "k1") (some "k2") (some "k3") none

/-- A completion body whose first choice says Hello. -/
def llm_body_hello : Json :=
  Json.obj
    [("choices", Json.arr
      [Json.obj [("message", Json.obj [("content", Json.str "Hello!")])]])]

/-- All services healthy. -/
def wOk : World :=
  World.mk 200 llm_body_hello 200 [1, 2, 3] 200
    (Json.obj [("blendshapes", Json.arr [Json.obj [("frame", Json.num 0)]])]) 200

/-- The completion service answers 404; everything else healthy. -/
def w404 : World :=
  World.mk 404 llm_body_hello 200 [1, 2, 3] 200
    (Json.obj [("blendshapes", Json.arr [Json.obj [("frame", Json.num 0)]])]) 200

/-- A request: current message Hi, one prior user turn. -/
def req0 : ChatRequest := ChatRequest.mk "Hi" [Message.mk "user" "Hi"]


/-! Shared unfolding lemmas about the orchestrator. -/

/-- The tail of the pipeline succeeds exactly when stages 3 and 4 succeed,
and then yields the response dictionary built from the stage-1 text. -/
theorem chat_tail_ok (env : Env) (w : World) (c : Json) (a : Bytes) (v : Json) :
    (chat_tail env w c a).1 = Except.ok v ↔
      (∃ bs, (audio_to_blendshapes env w a).1 = Except.ok bs ∧
        (send_to_unreal_engine env w a bs).1 = Except.ok () ∧
        v = Json.obj [("response", c)]) := by
  simp only [chat_tail]
  cases h3 : (audio_to_blendshapes env w a).1 with
  | error e => simp [h3]
  | ok bs =>
    cases h4 : (send_to_unreal_engine env w a bs).1 with
    | error e => simp [h3, h4]
    | ok u => cases u; simp [h3, h4, eq_comm]

/-- The pipeline body succeeds exactly when all four stages succeed in
order, each consuming the output of the previous stage. -/
theorem chat_body_ok (env : Env) (w : World) (req : ChatRequest) (v : Json) :
    (chat_body env w req).1 = Except.ok v ↔
      ∃ c a, (generate_llm_response env w req.messages).1 = Except.ok c ∧
        (text_to_speech env w c).1 = Except.ok a ∧
        (chat_tail env w c a).1 = Except.ok v := by
  simp only [chat_body]
  cases h1 : (generate_llm_response env w req.messages).1 with
  | error e => simp [h1]
  | ok c0 =>
    cases h2 : (text_to_speech env w c0).1 with
    | error e => simp [h1, h2]
    | ok a0 => simp [h1, h2]

/-- The endpoint answers success exactly when the pipeline body does. -/
theorem chat_ok_iff (env : Env) (w : World) (req : ChatRequest) (v : Json) :
    (chat env w req).1 = Except.ok v ↔ (chat_body env w req).1 = Except.ok v := by
  simp only [chat]
  cases hb : (chat_body env w req).1 with
  | error e => simp [hb]
  | ok v0 => simp [hb]

/-- The endpoint answers an error exactly when the pipeline body raised
one, and then the error response is a 500 carrying the string form of the
exception. -/
theorem chat_error_iff (env : Env) (w : World) (req : ChatRequest) (r : HTTPErrorResponse) :
    (chat env w req).1 = Except.error r ↔
      ∃ e, (chat_body env w req).1 = Except.error e ∧
        r = HTTPErrorResponse.mk 500 (strOfError e) := by
  simp only [chat]
  cases hb : (chat_body env w req).1 with
  | error e => simp [hb, eq_comm]
  | ok v0 => simp [hb]

/-- C1: for every conversation history, if all four stages succeed, the
value returned to the caller of the chat operation is exactly the
singleton dictionary mapping the response key to the text returned by the
completion stage (the PipelineResult field the spec calls response_text);
the speech, blendshape, and delivery stages do not modify or replace that
text. -/
theorem c1_result_is_completion_output (env : Env) (w : World) (req : ChatRequest)
    (v : Json) (h : (chat env w req).1 = Except.ok v) :
    ∃ c, (generate_llm_response env w req.messages).1 = Except.ok c ∧
      v = Json.obj [("response", c)] := by
  rw [chat_ok_iff] at h
  obtain ⟨c, a, h1, _, h3⟩ := (chat_body_ok env w req v).mp h
  obtain ⟨bs, _, _, hv⟩ := (chat_tail_ok env w c a v).mp h3
  exact ⟨c, h1, hv⟩

/-- C1 witness: a concrete healthy run where the completion stage answers
Hello and the caller receives exactly that. -/
theorem c1_witness :
    ∃ c, (generate_llm_response envAll wOk req0.messages).1 = Except.ok c ∧
      Json.obj [("response", Json.str "Hello!")] = Json.obj [("response", c)] :=
  c1_result_is_completion_output envAll wOk req0
    (Json.obj [("response", Json.str "Hello!")]) rfl

/-- C2: if the completion credential is configured and the completion
service answers any non-2xx status, the pipeline makes zero outbound
calls to the speech, blendshape, and delivery services. -/
theorem c2_no_downstream_calls_on_llm_failure (env : Env) (w : World) (req : ChatRequest)
    (hk : truthy env.OPENAI_API_KEY = true)
    (hs : w.llm_status < 200 ∨ 300 ≤ w.llm_status) :
    ((chat env w req).2.countP ServiceCall.isTts) = 0 ∧
    ((chat env w req).2.countP ServiceCall.isNeurosync) = 0 ∧
    ((chat env w req).2.countP ServiceCall.isUnreal) = 0 := by
  have hne : w.llm_status ≠ 200 := by omega
  have h1 : generate_llm_response env w req.messages =
      (Except.error (PyError.httpException w.llm_status "LLM API error"),
       [ServiceCall.llm llm_url
         (llm_payload (req.messages.map (fun m => (m.role, m.content))))]) := by
    simp only [generate_llm_response, hk]
    simp [hne]
  simp only [chat, chat_body, h1]
  simp [List.countP_cons, ServiceCall.isTts, ServiceCall.isNeurosync, ServiceCall.isUnreal]

/-- C2 witness: with every credential configured and the completion
service answering 404, no speech, blendshape, or delivery call is made. -/
theorem c2_witness :
    ((chat envAll w404 req0).2.countP ServiceCall.isTts) = 0 ∧
    ((chat envAll w404 req0).2.countP ServiceCall.isNeurosync) = 0 ∧
    ((chat envAll w404 req0).2.countP ServiceCall.isUnreal) = 0 :=
  c2_no_downstream_calls_on_llm_failure envAll w404 req0 rfl (Or.inr (by decide))

/-- C3: if the completion credential is absent (unset or empty), the
pipeline fails immediately with the ValueError naming the missing
variable, surfaced as a 500, and makes no outbound network call at all. -/
theorem c3_config_error_no_calls (env : Env) (w : World) (req : ChatRequest)
    (h : truthy env.OPENAI_API_KEY = false) :
    chat env w req =
      (Except.error
        (HTTPErrorResponse.mk 500 "OPENAI_API_KEY environment variable not set"), []) := by
  simp only [chat, chat_body, generate_llm_response, h]
  simp [strOfError]

/-- C3 witness: the concrete environment with no completion credential. -/
theorem c3_witness :
    chat envNoLLM wOk req0 =
      (Except.error
        (HTTPErrorResponse.mk 500 "OPENAI_API_KEY environment variable not set"), []) :=
  c3_config_error_no_calls envNoLLM wOk req0 rfl

/-- C4: if the speech credential is absent, `text_to_speech` returns the
fixed placeholder audio bytes with no network call and no error, and —
whenever the completion stage succeeded — the pipeline proceeds to the
blendshape stage (the pipeline tail) with that placeholder as its audio
input. -/
theorem c4_tts_placeholder_and_proceed (env : Env) (w : World)
    (h : truthy env.TTS_API_KEY = false) :
    (∀ t, text_to_speech env w t = (Except.ok DUMMY_AUDIO_DATA, [])) ∧
    (∀ req c c1, generate_llm_response env w req.messages = (Except.ok c, c1) →
      chat_body env w req =
        ((chat_tail env w c DUMMY_AUDIO_DATA).1,
          c1 ++ (chat_tail env w c DUMMY_AUDIO_DATA).2)) := by
  have htts : ∀ t, text_to_speech env w t = (Except.ok DUMMY_AUDIO_DATA, []) := by
    intro t
    simp [text_to_speech, h]
  refine ⟨htts, ?_⟩
  intro req c c1 hgen
  simp [chat_body, hgen, htts c]

/-- C4 witness: speech credential absent, completion stage answered
Hello; the placeholder is returned and the tail runs on it. -/
theorem c4_witness :
    text_to_speech envTtsAbsent wOk (Json.str "Hello!") = (Except.ok DUMMY_AUDIO_DATA, []) ∧
    chat_body envTtsAbsent wOk req0 =
      ((chat_tail envTtsAbsent wOk (Json.str "Hello!") DUMMY_AUDIO_DATA).1,
        [ServiceCall.llm llm_url (llm_payload [("user", "Hi")])] ++
          (chat_tail envTtsAbsent wOk (Json.str "Hello!") DUMMY_AUDIO_DATA).2) :=
  ⟨(c4_tts_placeholder_and_proceed envTtsAbsent wOk rfl).1 (Json.str "Hello!"),
   (c4_tts_placeholder_and_proceed envTtsAbsent wOk rfl).2 req0 (Json.str "Hello!")
     [ServiceCall.llm llm_url (llm_payload [("user", "Hi")])] rfl⟩

/-- C5: if the blendshape credential is absent, `audio_to_blendshapes`
returns the fixed placeholder — a single frame with frame index 0 and the
one shape mouthOpen at the mid-range weight one half — with no network
call and no error. -/
theorem c5_blendshape_placeholder (env : Env) (w : World) (audio : Bytes)
    (h : truthy env.NEUROSYNC_API_KEY = false) :
    audio_to_blendshapes env w audio = (Except.ok dummy_blendshapes, []) ∧
    dummy_blendshapes =
      Json.arr [Json.obj
        [("frame", Json.num 0),
         ("blendshapes", Json.obj [("mouthOpen", Json.num (1 / 2))])]] ∧
    (0 : Rat) < 1 / 2 ∧ (1 / 2 : Rat) < 1 := by
  refine ⟨?_, rfl, by norm_num, by norm_num⟩
  simp [audio_to_blendshapes, h]

/-- C5 witness: blendshape credential absent on a concrete audio input. -/
theorem c5_witness :
    audio_to_blendshapes envLLMOnly wOk [1, 2, 3] = (Except.ok dummy_blendshapes, []) ∧
    dummy_blendshapes =
      Json.arr [Json.obj
        [("frame", Json.num 0),
         ("blendshapes", Json.obj [("mouthOpen", Json.num (1 / 2))])]] ∧
    (0 : Rat) < 1 / 2 ∧ (1 / 2 : Rat) < 1 :=
  c5_blendshape_placeholder envLLMOnly wOk [1, 2, 3] rfl

/-- C6: if the delivery endpoint is unset, `send_to_unreal_engine`
performs no network call and raises no error, and — when stages 1 to 3
succeed — the overall pipeline reports success, returning exactly the
stage-1 text, with only the calls of stages 1 to 3 made. -/
theorem c6_delivery_noop_success (env : Env) (w : World) (req : ChatRequest)
    (c : Json) (a : Bytes) (bs : Json) (c1 c2 c3 : List ServiceCall)
    (h : truthy env.UNREAL_API_ENDPOINT = false)
    (h1 : generate_llm_response env w req.messages = (Except.ok c, c1))
    (h2 : text_to_speech env w c = (Except.ok a, c2))
    (h3 : audio_to_blendshapes env w a = (Except.ok bs, c3)) :
    send_to_unreal_engine env w a bs = (Except.ok (), []) ∧
    chat env w req = (Except.ok (Json.obj [("response", c)]), c1 ++ c2 ++ c3) := by
  have hu : send_to_unreal_engine env w a bs = (Except.ok (), []) := by
    simp [send_to_unreal_engine, h]
  refine ⟨hu, ?_⟩
  simp [chat, chat_body, chat_tail, h1, h2, h3, hu]

/-- C6 witness: delivery endpoint unset, all remote services healthy; the
caller receives the stage-1 text and the three upstream calls are made. -/
theorem c6_witness :
    send_to_unreal_engine envNoUnreal wOk wOk.tts_content
        (Json.arr [Json.obj [("frame", Json.num 0)]]) = (Except.ok (), []) ∧
    chat envNoUnreal wOk req0 =
      (Except.ok (Json.obj [("response", Json.str "Hello!")]),
        [ServiceCall.llm llm_url (llm_payload [("user", "Hi")])] ++
        [ServiceCall.tts tts_url (tts_payload (Json.str "Hello!"))] ++
        [ServiceCall.neurosync neurosync_url (neurosync_payload (b64encode [1, 2, 3]))]) :=
  c6_delivery_noop_success envNoUnreal wOk req0 (Json.str "Hello!") wOk.tts_content
    (Json.arr [Json.obj [("frame", Json.num 0)]])
    [ServiceCall.llm llm_url (llm_payload [("user", "Hi")])]
    [ServiceCall.tts tts_url (tts_payload (Json.str "Hello!"))]
    [ServiceCall.neurosync neurosync_url (neurosync_payload (b64encode [1, 2, 3]))]
    rfl rfl rfl rfl

/-- C7: for every stage whose credential or endpoint is configured, a
non-2xx answer from the remote service of that stage makes it fail with
the HTTPException naming that stage (the UpstreamError of the spec), and every
such failure collapses to a single caller-visible 500 response whose
detail is the nonempty string form of the exception. -/
theorem c7_upstream_error_per_stage (env : Env) (w : World) :
    (∀ msgs, truthy env.OPENAI_API_KEY = true → non2xx w.llm_status →
      (generate_llm_response env w msgs).1 =
        Except.error (PyError.httpException w.llm_status "LLM API error")) ∧
    (∀ t, truthy env.TTS_API_KEY = true → non2xx w.tts_status →
      (text_to_speech env w t).1 =
        Except.error (PyError.httpException w.tts_status "TTS API error")) ∧
    (∀ a, truthy env.NEUROSYNC_API_KEY = true → non2xx w.neurosync_status →
      (audio_to_blendshapes env w a).1 =
        Except.error (PyError.httpException w.neurosync_status "Neurosync API error")) ∧
    (∀ a bs, truthy env.UNREAL_API_ENDPOINT = true → non2xx w.unreal_status →
      (send_to_unreal_engine env w a bs).1 =
        Except.error (PyError.httpException w.unreal_status "Unreal Engine API error")) ∧
    (∀ req s d, (chat_body env w req).1 = Except.error (PyError.httpException s d) →
      (chat env w req).1 =
        Except.error (HTTPErrorResponse.mk 500 (strOfError (PyError.httpException s d))) ∧
      strOfError (PyError.httpException s d) ≠ "") := by
  refine ⟨?_, ?_, ?_, ?_, ?_⟩
  · intro msgs hk hs
    have hne : w.llm_status ≠ 200 := by unfold non2xx at hs; omega
    simp [generate_llm_response, hk, hne]
  · intro t hk hs
    have hne : w.tts_status ≠ 200 := by unfold non2xx at hs; omega
    simp [text_to_speech, hk, hne]
  · intro a hk hs
    have hne : w.neurosync_status ≠ 200 := by unfold non2xx at hs; omega
    simp [audio_to_blendshapes, hk, hne]
  · intro a bs hk hs
    have hne : w.unreal_status ≠ 200 := by unfold non2xx at hs; omega
    simp [send_to_unreal_engine, hk, hne]
  · intro req s d hb
    constructor
    · simp [chat, hb]
    · intro hcontra
      have hlen := congrArg String.length hcontra
      simp only [strOfError, String.length_append] at hlen
      have h2 : (": " : String).length = 2 := by decide
      simp [h2] at hlen

/-- C7 witness: completion credential configured, completion service
answers 404; the stage fails with the stage-naming exception and the
caller sees a single 500 with a nonempty message. -/
theorem c7_witness :
    (generate_llm_response envAll w404 req0.messages).1 =
      Except.error (PyError.httpException 404 "LLM API error") ∧
    (chat envAll w404 req0).1 =
      Except.error (HTTPErrorResponse.mk 500
        (strOfError (PyError.httpException 404 "LLM API error"))) ∧
    strOfError (PyError.httpException 404 "LLM API error") ≠ "" := by
  refine ⟨?_, ?_⟩
  · exact (c7_upstream_error_per_stage envAll w404).1 req0.messages rfl (Or.inr (by decide))
  · exact (c7_upstream_error_per_stage envAll w404).2.2.2.2 req0 404 "LLM API error" rfl

/-- C8 counterexample: a request whose sole turn has role banana — not
one of user, assistant, system — passes request validation unchanged, so
the claimed rejection does not happen. -/
theorem c8_counterexample :
    chat_request_validate
        (Json.obj [("message", Json.str "Hi"),
          ("messages", Json.arr
            [Json.obj [("role", Json.str "banana"), ("content", Json.str "hi")]])]) =
      some (ChatRequest.mk "Hi" [Message.mk "banana" "hi"]) ∧
    "banana" ≠ "user" ∧ "banana" ≠ "assistant" ∧ "banana" ≠ "system" :=
  ⟨rfl, by decide, by decide, by decide⟩

/-- C8 amended: request validation only requires the role and content
fields to be strings; every string role, including values outside the
three conversational roles, is accepted and passed through unchanged. -/
theorem c8_any_string_role_accepted (m r c : String) :
    chat_request_validate
        (Json.obj [("message", Json.str m),
          ("messages", Json.arr
            [Json.obj [("role", Json.str r), ("content", Json.str c)]])]) =
      some (ChatRequest.mk m [Message.mk r c]) := rfl

/-- C9 counterexample: with current user message Hi and an empty prior
history, the single request sent to the completion service carries an
empty messages array — the current user message is not included, refuting
the claim that the completion request includes it in addition to the
prior turns. -/
theorem c9_counterexample :
    (ChatRequest.mk "Hi" []).message = "Hi" ∧
    (chat envLLMOnly wOk (ChatRequest.mk "Hi" [])).2 =
      [ServiceCall.llm llm_url (llm_payload [])] ∧
    jsonGet (llm_payload []) "messages" = some (Json.arr []) :=
  ⟨rfl, rfl, rfl⟩

/-- C9 amended: whenever the completion credential is configured, the
request sent to the completion service consists of exactly the prior
turns, formatted in their original chronological order; the current user
message field of the request is ignored and not separately appended. -/
theorem c9_completion_payload_is_prior_turns (env : Env) (w : World) (req : ChatRequest)
    (hk : truthy env.OPENAI_API_KEY = true) :
    (generate_llm_response env w req.messages).2 =
      [ServiceCall.llm llm_url
        (llm_payload (req.messages.map (fun m => (m.role, m.content))))] ∧
    ∃ rest, (chat env w req).2 =
      ServiceCall.llm llm_url
        (llm_payload (req.messages.map (fun m => (m.role, m.content)))) :: rest := by
  have h1 : (generate_llm_response env w req.messages).2 =
      [ServiceCall.llm llm_url
        (llm_payload (req.messages.map (fun m => (m.role, m.content))))] := by
    simp only [generate_llm_response, hk]
    split
    · simp_all
    · split
      · rfl
      · split <;> rfl
  refine ⟨h1, ?_⟩
  rcases hgen : generate_llm_response env w req.messages with ⟨r1, cl1⟩
  have hcl : cl1 = [ServiceCall.llm llm_url
      (llm_payload (req.messages.map (fun m => (m.role, m.content))))] := by
    rw [hgen] at h1
    exact h1
  cases r1 with
  | error e =>
      refine ⟨[], ?_⟩
      simp [chat, chat_body, hgen, hcl]
  | ok c =>
      cases h2 : (text_to_speech env w c).1 with
      | error e =>
          refine ⟨(text_to_speech env w c).2, ?_⟩
          simp [chat, chat_body, hgen, hcl, h2]
      | ok a =>
          refine ⟨(text_to_speech env w c).2 ++ (chat_tail env w c a).2, ?_⟩
          cases h3 : (chat_tail env w c a).1 with
          | error e => simp [chat, chat_body, hgen, hcl, h2, h3]
          | ok v => simp [chat, chat_body, hgen, hcl, h2, h3]

/-- C9 amended witness: a concrete request whose one prior turn is sent
in order as the whole completion payload. -/
theorem c9_witness :
    (generate_llm_response envLLMOnly wOk req0.messages).2 =
      [ServiceCall.llm llm_url
        (llm_payload (req0.messages.map (fun m => (m.role, m.content))))] ∧
    ∃ rest, (chat envLLMOnly wOk req0).2 =
      ServiceCall.llm llm_url
        (llm_payload (req0.messages.map (fun m => (m.role, m.content)))) :: rest :=
  c9_completion_payload_is_prior_turns envLLMOnly wOk req0 rfl

/-- C10: every pipeline failure, whatever the stage and whatever status
the upstream service returned, reaches the caller as status code exactly
500. -/
theorem c10_all_failures_are_500 (env : Env) (w : World) (req : ChatRequest)
    (r : HTTPErrorResponse) (h : (chat env w req).1 = Except.error r) :
    r.status_code = 500 := by
  obtain ⟨e, _, hr⟩ := (chat_error_iff env w req r).mp h
  rw [hr]

/-- C10 witness: an upstream 404 from the completion service is surfaced
to the caller as a 500, not a 404. -/
theorem c10_witness :
    (HTTPErrorResponse.mk 500 "404: LLM API error").status_code = 500 :=
  c10_all_failures_are_500 envAll w404 req0
    (HTTPErrorResponse.mk 500 "404: LLM API error") rfl
